import Mathlib

/-!
Verification of the `nekro-plugin-zaobao` morning-briefing plugin
(`src/__init__.py`).  The whole observable behaviour of the plugin is the
single coroutine `get_daily_zaobao`, which issues one HTTP POST and maps
every possible outcome of that interaction to a returned string.  We embed
the function shallowly: the HTTP interaction's outcome (transport failure,
or a response with a status code and an optionally JSON-decodable body) is
the input, and the returned string is the output.  Machinery that the
function only passes through (plugin registration, configuration loading,
logging) is outside the model, exactly as it is outside the data flow of
the returned string.
-/

/-- JSON values, as produced by `response.json()`.  Numbers are modelled as
integers; the envelope model only ever accepts an integer (`code : int`),
so the restriction does not change any behaviour the theorems touch. -/
inductive JVal where
  | jnull
  | jbool (b : Bool)
  | jnum (n : Int)
  | jstr (s : String)
  | jarr (xs : List JVal)
  | jobj (fields : List (String × JVal))

/-- Values admitted by the pydantic field type of `ZaobaoResponse.data`,
`Dict[str, Optional[Union[str, List[str], None]]]` (source lines 48–51):
after validation every value of the data mapping is a string, a list of
strings, or `None`. -/
inductive FieldVal where
  | vnull
  | vstr (s : String)
  | vlist (xs : List String)
deriving DecidableEq

/-- Python truthiness of a validated data value: `None`, `""` and `[]` are
falsy, everything else truthy (used by `not zaobao_data.data[field]` on
line 97 and by the `audio` check on line 122). -/
def FieldVal.truthy : FieldVal → Bool
  | .vnull => false
  | .vstr s => !(s == "")
  | .vlist xs => !xs.isEmpty

/-- A JSON array accepted as `List[str]`: every element must be a string. -/
def asStrList : List JVal → Option (List String)
  | [] => some []
  | .jstr s :: rest =>
    match asStrList rest with
    | some ss => some (s :: ss)
    | none => none
  | _ => none

/-- Pydantic validation of one value of the `data` mapping against
`Optional[Union[str, List[str], None]]` (non-coercing, as in pydantic v2):
a JSON string, an array of strings, or null; anything else is a
`ValidationError`. -/
def validateFieldVal : JVal → Option FieldVal
  | .jnull => some .vnull
  | .jstr s => some (.vstr s)
  | .jarr xs =>
    match asStrList xs with
    | some ss => some (.vlist ss)
    | none => none
  | _ => none

/-- Validation of the whole `data` object: every value must satisfy
`validateFieldVal`, keys are kept as-is. -/
def validateData : List (String × JVal) → Option (List (String × FieldVal))
  | [] => some []
  | (k, v) :: rest =>
    match validateFieldVal v with
    | none => none
    | some fv =>
      match validateData rest with
      | none => none
      | some tl => some ((k, fv) :: tl)

/-- The envelope model `ZaobaoResponse` (source lines 44–51): `code : int`
(required), `msg : str` (default `""`), `data` (default `{}`). -/
structure ZaobaoResponse where
  code : Int
  msg : String
  data : List (String × FieldVal)
deriving DecidableEq

/-- The `msg` field of the envelope: a string if present, the default `""`
if absent, a `ValidationError` for any other type. -/
def parseMsg (fields : List (String × JVal)) : Option String :=
  match fields.lookup "msg" with
  | some (.jstr s) => some s
  | none => some ""
  | some _ => none

/-- The `data` field of the envelope: a validated object if present, the
default `{}` if absent, a `ValidationError` for any other type. -/
def parseData (fields : List (String × JVal)) : Option (List (String × FieldVal)) :=
  match fields.lookup "data" with
  | some (.jobj dfields) => validateData dfields
  | none => some []
  | some _ => none

/-- Pydantic lax validation of `code : int`: an integer is accepted as is,
and a numeric string — an optionally signed decimal numeral, surrounding
whitespace allowed — is coerced to the integer it spells, so a body such as
`{"code": "200"}` parses and proceeds past validation.  Null, booleans,
arrays and objects are rejected.  Pydantic's more exotic numeric-string
forms (underscored or float-like numerals) are not represented: on the
string branch the model only ever accepts strings pydantic also accepts,
and the one theorem below that needs a rejected `code` restricts itself to
the non-string, non-number constructors. -/
def lenientInt : JVal → Option Int
  | .jnum n => some n
  | .jstr s =>
    let t := s.trim
    if t.startsWith "+" then (t.drop 1).toNat?.map (fun n => (n : Int))
    else t.toInt?
  | _ => none

/-- `ZaobaoResponse(**body)` for a JSON-object body (source line 86):
`none` models a `ValidationError`.  All three fields must validate; the
order in which they are examined is unobservable, since any single failure
yields the same `ValidationError` outcome. -/
def parseEnvelope (fields : List (String × JVal)) : Option ZaobaoResponse :=
  match parseData fields with
  | none => none
  | some dt =>
    match parseMsg fields with
    | none => none
    | some m =>
      match fields.lookup "code" with
      | some v =>
        match lenientInt v with
        | some n => some ⟨n, m, dt⟩
        | none => none
      | none => none

/-- Values pydantic rejects outright for `code : int` in every mode: null,
booleans (explicitly not accepted as integers), arrays and objects.
Numbers are accepted and numeric strings coerced, so neither appears
here. -/
def intRejected : JVal → Bool
  | .jnull => true
  | .jbool _ => true
  | .jarr _ => true
  | .jobj _ => true
  | _ => false

/-- Values that are not JSON strings — rejected for `msg : str`, which
lax-mode pydantic does not coerce from other JSON types. -/
def notJStr : JVal → Bool
  | .jstr _ => false
  | _ => true

/-- Values that are not JSON objects — rejected for the `data` mapping. -/
def notJObj : JVal → Bool
  | .jobj _ => false
  | _ => true

/-- Python's `sep.join(xs)` on a list of strings. -/
def pyJoinStr (sep : String) : List String → String
  | [] => ""
  | [x] => x
  | x :: xs => x ++ sep ++ pyJoinStr sep xs

/-- The strings of a value list, provided every element is a string. -/
def strValues : List FieldVal → Option (List String)
  | [] => some []
  | .vstr s :: rest =>
    match strValues rest with
    | some ss => some (s :: ss)
    | none => none
  | _ => none

/-- Python's `str.join` raises `TypeError` unless every element is a `str`;
`none` models that exception (it matters on line 123, where the raw
`weiyu` value is placed in the list). -/
def pyJoinVals (sep : String) (vals : List FieldVal) : Option String :=
  match strValues vals with
  | some ss => some (pyJoinStr sep ss)
  | none => none

/-- Python `repr` of one character inside a string literal (quote and
common escapes; only reachable through f-string rendering of list-valued
fields, which no success path of the spec exercises). -/
def pyEscapeChar (q c : Char) : String :=
  if c = '\\' then "\\\\"
  else if c = q then "\\" ++ String.singleton q
  else if c = '\n' then "\\n"
  else if c = '\r' then "\\r"
  else if c = '\t' then "\\t"
  else String.singleton c

/-- Python `repr` of a string: single quotes unless the string contains a
single quote and no double quote. -/
def pyReprStr (s : String) : String :=
  let q := if s.contains (Char.ofNat 39) && !(s.contains '"') then '"' else Char.ofNat 39
  String.singleton q ++ String.join (s.data.map (pyEscapeChar q)) ++ String.singleton q

/-- What an f-string interpolation (`f"... {v} ..."`) renders a validated
data value as: strings verbatim, `None` as `"None"`, lists via `repr` of
their elements. -/
def FieldVal.fstr : FieldVal → String
  | .vstr s => s
  | .vnull => "None"
  | .vlist xs => "[" ++ pyJoinStr ", " (xs.map pyReprStr) ++ "]"

/-- The fixed transport-failure message (source line 130). -/
def connectFailMsg : String := "无法连接到早报服务，请稍后重试。"

/-- The generic handler's message (source line 133), returned whenever an
exception other than `httpx.RequestError` or `ValidationError` reaches the
outer `try` (non-2xx status, undecodable body, non-object body). -/
def genericErrMsg : String := "处理早报信息时出错，请稍后重试。"

/-- The `ValidationError` message (source line 89). -/
def malformedMsg : String := "早报数据格式不正确，请稍后重试。"

/-- The upstream-error message for `code != 200` (source line 93). -/
def upstreamFailMsg (m : String) : String := "获取早报失败: " ++ m

/-- The missing-required-field message (source line 99). -/
def missingFieldMsg (f : String) : String :=
  "早报数据不完整，缺少 " ++ f ++ " 信息，请稍后重试。"

/-- The inner rendering handler's message (source line 126). -/
def renderFailMsg : String := "早报信息处理失败，请稍后重试。"

/-- The required-field list of source line 96. -/
def requiredFields : List String := ["date", "news", "weiyu"]

/-- `field not in zaobao_data.data or not zaobao_data.data[field]`
(source line 97). -/
def isMissingOrEmpty (data : List (String × FieldVal)) (f : String) : Bool :=
  match data.lookup f with
  | none => true
  | some v => !v.truthy

/-- The loop over `required_fields` (source lines 96–100) returns on the
first absent-or-falsy field; `none` means the loop fell through. -/
def firstMissing (data : List (String × FieldVal)) : Option String :=
  requiredFields.find? (isMissingOrEmpty data)

/-- News normalisation (source lines 104–110): a list is joined with
newlines, a string is kept, anything else gets the placeholder.  After
validation only `None` can reach the placeholder branch. -/
def normNews : FieldVal → String
  | .vlist xs => pyJoinStr "\n" xs
  | .vstr s => s
  | .vnull => "【暂无详细新闻】"

/-- The rendering `try` block (source lines 102–124): look up the fields
(a `KeyError` behaves like any other exception here, hence `none`), build
the result list with the raw `weiyu` value, optionally append the audio
line, and join.  `none` models any exception caught by the inner
`except Exception` on line 125. -/
def renderBrief (data : List (String × FieldVal)) : Option String :=
  match data.lookup "news" with
  | none => none
  | some news_data =>
    match data.lookup "date", data.lookup "weiyu" with
    | some date, some weiyu =>
      let base := [FieldVal.vstr "【每日早报】",
                   FieldVal.vstr ("今天是 " ++ date.fstr),
                   FieldVal.vstr (normNews news_data),
                   weiyu]
      match data.lookup "audio" with
      | some a =>
        if a.truthy then pyJoinVals "\n" (base ++ [FieldVal.vstr ("\n音频链接: " ++ a.fstr)])
        else pyJoinVals "\n" base
      | none => pyJoinVals "\n" base
    | _, _ => none

/-- Processing of a successfully parsed envelope (source lines 91–126). -/
def handleParsed (env : ZaobaoResponse) : String :=
  if env.code ≠ 200 then upstreamFailMsg env.msg
  else
    match firstMissing env.data with
    | some f => missingFieldMsg f
    | none =>
      match renderBrief env.data with
      | some s => s
      | none => renderFailMsg

/-- Parsing of a JSON-object body (source lines 84–89): a
`ValidationError` yields the malformed-data message. -/
def handleEnvelope (fields : List (String × JVal)) : String :=
  match parseEnvelope fields with
  | none => malformedMsg
  | some env => handleParsed env

/-- Processing of a 2xx response's body: an undecodable body
(`response.json()` raising) or a non-object body (`**` raising
`TypeError`) both land in the generic `except Exception` handler. -/
def handleBody : Option JVal → String
  | none => genericErrMsg
  | some (.jobj fields) => handleEnvelope fields
  | some _ => genericErrMsg

/-- Kinds of `httpx.RequestError` the request can raise. -/
inductive TransportFailure where
  | connectError
  | timeout
  | dnsFailure

/-- An HTTP response: its status code and its body (`none` when the body
is not valid JSON). -/
structure HttpResponse where
  status : Nat
  body : Option JVal

/-- The outcome of the single outbound POST. -/
inductive HttpOutcome where
  | failure (k : TransportFailure)
  | ok (resp : HttpResponse)

/-- `get_daily_zaobao` (source lines 57–133) as a function of the HTTP
interaction's outcome.  `response.raise_for_status()` raises
`httpx.HTTPStatusError` — which is *not* a `httpx.RequestError` — for any
non-2xx status, so that exception reaches the final generic handler. -/
def get_daily_zaobao (o : HttpOutcome) : String :=
  match o with
  | .failure _ => connectFailMsg
  | .ok resp =>
    if 200 ≤ resp.status ∧ resp.status < 300 then handleBody resp.body
    else genericErrMsg

/-! ### Shared helper lemmas -/

/-- A character of a designated middle segment of a split string is a
character of the whole string. -/
theorem char_mem_of_split {s a mid b : String} (h : s = a ++ mid ++ b)
    (c : Char) (hc : c ∈ mid.data) : c ∈ s.data := by
  subst h
  rw [String.data_append, String.data_append]
  exact List.mem_append_left _ (List.mem_append_right _ hc)

/-- `List.find?` succeeds, on an element of the list satisfying the
predicate, whenever some element satisfies it. -/
theorem find?_exists {α : Type} (p : α → Bool) :
    ∀ l : List α, (∃ x ∈ l, p x = true) →
      ∃ g, l.find? p = some g ∧ g ∈ l ∧ p g = true := by
  intro l
  induction l with
  | nil =>
    intro h
    rcases h with ⟨x, hx, _⟩
    exact absurd hx (List.not_mem_nil x)
  | cons a l ih =>
    intro h
    cases ha : p a with
    | true => exact ⟨a, List.find?_cons_of_pos _ ha, List.mem_cons_self a l, ha⟩
    | false =>
      rcases h with ⟨x, hx, hpx⟩
      have hxl : x ∈ l := by
        rcases List.mem_cons.mp hx with h1 | h1
        · subst h1; rw [ha] at hpx; cases hpx
        · exact h1
      rcases ih ⟨x, hxl, hpx⟩ with ⟨g, hg, hgl, hpg⟩
      refine ⟨g, ?_, List.mem_cons_of_mem a hgl, hpg⟩
      rw [List.find?_cons_of_neg _ (by simp [ha])]
      exact hg

/-- A successful association-list lookup exhibits a member of the list. -/
theorem lookup_mem {β : Type} {l : List (String × β)} {k : String} {v : β}
    (h : l.lookup k = some v) : (k, v) ∈ l := by
  induction l with
  | nil => cases h
  | cons p l ih =>
    rcases p with ⟨k', v'⟩
    by_cases hk : k = k'
    · subst hk
      simp [List.lookup] at h
      rw [← h]
      exact List.mem_cons_self _ _
    · have hbeq : (k == k') = false := by simp [hk]
      simp only [List.lookup, hbeq] at h
      exact List.mem_cons_of_mem _ (ih h)

/-- One invalid value makes the whole `data` object fail validation. -/
theorem validateData_eq_none {dfields : List (String × JVal)} {k : String}
    {v : JVal} (hmem : (k, v) ∈ dfields) (hv : validateFieldVal v = none) :
    validateData dfields = none := by
  induction dfields with
  | nil => cases hmem
  | cons p l ih =>
    rcases p with ⟨k', v'⟩
    rcases List.mem_cons.mp hmem with he | hm
    · injection he with h1 h2
      subst h1
      subst h2
      simp [validateData, hv]
    · have ht := ih hm
      cases hfv : validateFieldVal v' with
      | none => simp [validateData, hfv]
      | some fv => simp [validateData, hfv, ht]

/-- Reduction of `get_daily_zaobao` on a 2xx response. -/
theorem get_daily_zaobao_2xx {st : Nat} (h1 : 200 ≤ st) (h2 : st < 300)
    (b : Option JVal) : get_daily_zaobao (.ok ⟨st, b⟩) = handleBody b := by
  simp [get_daily_zaobao, h1, h2]

/-! ### Claim theorems -/

/-- Claim C7: for every transport-level failure (connection error, timeout,
DNS failure), `get_daily_zaobao` returns the one fixed cannot-connect
failure string, and does not raise to the caller. -/
theorem C7_transport_fixed_message (k : TransportFailure) :
    get_daily_zaobao (.failure k) = connectFailMsg := rfl

/-- Claim C6, counterexample: on a non-2xx status (404, and likewise 500)
the returned string is the fixed generic processing-error message, which is
identical for both statuses and contains no trace of the status code — it
is not derived from the status. -/
theorem C6_counterexample :
    get_daily_zaobao (.ok ⟨404, some (.jobj [("code", JVal.jnum 200)])⟩) = genericErrMsg ∧
    get_daily_zaobao (.ok ⟨500, some (.jobj [("code", JVal.jnum 200)])⟩) = genericErrMsg ∧
    ¬ ∃ a b : String, genericErrMsg = a ++ "404" ++ b := by
  refine ⟨rfl, rfl, ?_⟩
  rintro ⟨a, b, h⟩
  exact absurd (char_mem_of_split h '4' (by decide)) (by decide)

/-- Claim C6, amended: for every HTTP response with a non-2xx status code,
`get_daily_zaobao` returns the fixed generic failure string
`genericErrMsg`, independent of the status (the `HTTPStatusError` raised by
`raise_for_status` is caught by the final generic `except Exception`
handler, so no status context reaches the output). -/
theorem C6_nonsuccess_generic (st : Nat) (b : Option JVal)
    (h : st < 200 ∨ 300 ≤ st) :
    get_daily_zaobao (.ok ⟨st, b⟩) = genericErrMsg := by
  have hn : ¬ (200 ≤ st ∧ st < 300) := by omega
  simp [get_daily_zaobao, hn]

/-- Claim C6, witness for the amended theorem at status 404. -/
theorem C6_nonsuccess_generic_witness :
    get_daily_zaobao (.ok ⟨404, none⟩) = genericErrMsg :=
  C6_nonsuccess_generic 404 none (Or.inr (by decide))

/-- Claim C9, counterexample: a 2xx body missing both `msg` and `data`
(the envelope's message field and payload container) parses fine — pydantic
supplies the defaults `""` and `{}` — and the function proceeds to the
missing-field message for `date`, not to the malformed-data string. -/
theorem C9_counterexample :
    get_daily_zaobao (.ok ⟨200, some (.jobj [("code", JVal.jnum 200)])⟩) =
      missingFieldMsg "date" ∧
    missingFieldMsg "date" ≠ malformedMsg :=
  ⟨rfl, by decide⟩

/-- A failing `data` validation fails the whole envelope parse. -/
theorem parseEnvelope_none_of_parseData {fields : List (String × JVal)}
    (h : parseData fields = none) : parseEnvelope fields = none := by
  simp [parseEnvelope, h]

/-- A failing `msg` validation fails the whole envelope parse. -/
theorem parseEnvelope_none_of_parseMsg {fields : List (String × JVal)}
    (h : parseMsg fields = none) : parseEnvelope fields = none := by
  unfold parseEnvelope
  cases hpd : parseData fields with
  | none => rfl
  | some dt => simp [h]

/-- A body without the required `code` field fails the envelope parse. -/
theorem parseEnvelope_none_of_code_absent {fields : List (String × JVal)}
    (h : fields.lookup "code" = none) : parseEnvelope fields = none := by
  unfold parseEnvelope
  cases hpd : parseData fields with
  | none => rfl
  | some dt =>
    cases hpm : parseMsg fields with
    | none => rfl
    | some m => simp [h]

/-- A `code` value that lax validation rejects fails the envelope parse. -/
theorem parseEnvelope_none_of_code_invalid {fields : List (String × JVal)}
    {v : JVal} (hl : fields.lookup "code" = some v)
    (hv : lenientInt v = none) : parseEnvelope fields = none := by
  unfold parseEnvelope
  cases hpd : parseData fields with
  | none => rfl
  | some dt =>
    cases hpm : parseMsg fields with
    | none => rfl
    | some m => simp [hl, hv]

/-- Null, booleans, arrays and objects are rejected for `code : int`. -/
theorem lenientInt_eq_none_of_rejected {v : JVal}
    (h : intRejected v = true) : lenientInt v = none := by
  cases v with
  | jnum n => simp [intRejected] at h
  | jstr s => simp [intRejected] at h
  | jnull => rfl
  | jbool b => rfl
  | jarr xs => rfl
  | jobj fs => rfl

/-- A non-string `msg` value fails `msg` validation. -/
theorem parseMsg_none_of_bad {fields : List (String × JVal)} {v : JVal}
    (hl : fields.lookup "msg" = some v) (hv : notJStr v = true) :
    parseMsg fields = none := by
  cases v with
  | jstr s => simp [notJStr] at hv
  | jnull => simp [parseMsg, hl]
  | jbool b => simp [parseMsg, hl]
  | jnum n => simp [parseMsg, hl]
  | jarr xs => simp [parseMsg, hl]
  | jobj fs => simp [parseMsg, hl]

/-- A non-object `data` value fails `data` validation. -/
theorem parseData_none_of_bad {fields : List (String × JVal)} {v : JVal}
    (hl : fields.lookup "data" = some v) (hv : notJObj v = true) :
    parseData fields = none := by
  cases v with
  | jobj dfields => simp [notJObj] at hv
  | jnull => simp [parseData, hl]
  | jbool b => simp [parseData, hl]
  | jnum n => simp [parseData, hl]
  | jstr s => simp [parseData, hl]
  | jarr xs => simp [parseData, hl]

/-- Claim C9, amended: for every 2xx response whose body is a JSON object
with an envelope field of a wrong, uncoercible type — `code` absent or
bound to null, a boolean, an array or an object; `msg` bound to a
non-string; `data` bound to a non-object; or a `data` value that is neither
a string, a list of strings, nor null — `get_daily_zaobao` returns the
malformed-data failure string instead of propagating a structural
exception.  A body missing `msg` or `data` gets the defaults `""` and `{}`
and proceeds, and a numeric-string `code` such as `"200"` is coerced to an
integer and proceeds. -/
theorem C9_wrong_typed_envelope_malformed (st : Nat)
    (fields : List (String × JVal)) (h1 : 200 ≤ st) (h2 : st < 300)
    (hbad :
      fields.lookup "code" = none ∨
      (∃ v, fields.lookup "code" = some v ∧ intRejected v = true) ∨
      (∃ v, fields.lookup "msg" = some v ∧ notJStr v = true) ∨
      (∃ v, fields.lookup "data" = some v ∧ notJObj v = true) ∨
      ∃ dfields k v, fields.lookup "data" = some (.jobj dfields) ∧
        dfields.lookup k = some v ∧ validateFieldVal v = none) :
    get_daily_zaobao (.ok ⟨st, some (.jobj fields)⟩) = malformedMsg := by
  have hp : parseEnvelope fields = none := by
    rcases hbad with h | ⟨v, hl, hv⟩ | ⟨v, hl, hv⟩ | ⟨v, hl, hv⟩ |
      ⟨dfields, k, v, hl, hk, hv⟩
    · exact parseEnvelope_none_of_code_absent h
    · exact parseEnvelope_none_of_code_invalid hl (lenientInt_eq_none_of_rejected hv)
    · exact parseEnvelope_none_of_parseMsg (parseMsg_none_of_bad hl hv)
    · exact parseEnvelope_none_of_parseData (parseData_none_of_bad hl hv)
    · exact parseEnvelope_none_of_parseData
        (by simp [parseData, hl, validateData_eq_none (lookup_mem hk) hv])
  rw [get_daily_zaobao_2xx h1 h2]
  simp [handleBody, handleEnvelope, hp]

/-- Claim C9, witness for the amended theorem: `code` bound to a boolean,
which pydantic refuses for an integer field. -/
theorem C9_wrong_typed_envelope_malformed_witness :
    get_daily_zaobao (.ok ⟨200, some (.jobj [("code", JVal.jbool true)])⟩) =
      malformedMsg :=
  C9_wrong_typed_envelope_malformed 200 [("code", JVal.jbool true)]
    (by decide) (by decide) (Or.inr (Or.inl ⟨JVal.jbool true, rfl, rfl⟩))

/-- Claim C3: for every well-formed envelope whose code is not 200,
`get_daily_zaobao` returns exactly the upstream-failure message built from
the envelope's `msg` field, which therefore contains `msg` verbatim, and no
briefing content. -/
theorem C3_upstream_error_contains_msg (st : Nat)
    (fields : List (String × JVal)) (env : ZaobaoResponse)
    (h1 : 200 ≤ st) (h2 : st < 300)
    (hp : parseEnvelope fields = some env) (hc : env.code ≠ 200) :
    get_daily_zaobao (.ok ⟨st, some (.jobj fields)⟩) = upstreamFailMsg env.msg ∧
    ∃ a b, get_daily_zaobao (.ok ⟨st, some (.jobj fields)⟩) = a ++ env.msg ++ b := by
  have hmain : get_daily_zaobao (.ok ⟨st, some (.jobj fields)⟩) =
      upstreamFailMsg env.msg := by
    rw [get_daily_zaobao_2xx h1 h2]
    simp [handleBody, handleEnvelope, hp, handleParsed, hc]
  refine ⟨hmain, "获取早报失败: ", "", ?_⟩
  rw [hmain]
  simp [upstreamFailMsg, String.append_empty]

/-- Claim C3, witness: the spec's end-to-end example, envelope
code 401 / msg "invalid token". -/
theorem C3_upstream_error_contains_msg_witness :
    get_daily_zaobao (.ok ⟨200, some (.jobj
        [("code", JVal.jnum 401), ("msg", JVal.jstr "invalid token"),
         ("data", JVal.jobj [])])⟩) = upstreamFailMsg "invalid token" ∧
    ∃ a b, get_daily_zaobao (.ok ⟨200, some (.jobj
        [("code", JVal.jnum 401), ("msg", JVal.jstr "invalid token"),
         ("data", JVal.jobj [])])⟩) = a ++ "invalid token" ++ b :=
  C3_upstream_error_contains_msg 200
    [("code", JVal.jnum 401), ("msg", JVal.jstr "invalid token"),
     ("data", JVal.jobj [])]
    ⟨401, "invalid token", []⟩ (by decide) (by decide) rfl (by decide)

/-- The failure messages `get_daily_zaobao` can return: the four fixed
strings and the two one-parameter templates. -/
def IsFailureMessage (s : String) : Prop :=
  s = connectFailMsg ∨ s = genericErrMsg ∨ s = malformedMsg ∨
  s = renderFailMsg ∨ (∃ m, s = upstreamFailMsg m) ∨ ∃ f, s = missingFieldMsg f

/-- Claim C2: for every possible outcome of the HTTP interaction,
`get_daily_zaobao` returns a string (the embedding is a total function into
`String`, mirroring that every exception of the body is caught), and that
string is either a fully rendered brief or one of the six deterministic
failure messages — no other output, and no partial success, is possible. -/
theorem C2_total_and_enumerated (o : HttpOutcome) :
    IsFailureMessage (get_daily_zaobao o) ∨
    ∃ data s, renderBrief data = some s ∧ get_daily_zaobao o = s := by
  cases o with
  | failure k => exact Or.inl (Or.inl rfl)
  | ok resp =>
    rcases resp with ⟨st, body⟩
    by_cases hst : 200 ≤ st ∧ st < 300
    · have hred : get_daily_zaobao (.ok ⟨st, body⟩) = handleBody body := by
        simp [get_daily_zaobao, hst]
      rw [hred]
      cases body with
      | none => exact Or.inl (Or.inr (Or.inl rfl))
      | some j =>
        cases j with
        | jnull => exact Or.inl (Or.inr (Or.inl rfl))
        | jbool b => exact Or.inl (Or.inr (Or.inl rfl))
        | jnum n => exact Or.inl (Or.inr (Or.inl rfl))
        | jstr s => exact Or.inl (Or.inr (Or.inl rfl))
        | jarr xs => exact Or.inl (Or.inr (Or.inl rfl))
        | jobj fields =>
          cases hp : parseEnvelope fields with
          | none =>
            refine Or.inl (Or.inr (Or.inr (Or.inl ?_)))
            simp [handleBody, handleEnvelope, hp]
          | some env =>
            have henv : handleBody (some (.jobj fields)) = handleParsed env := by
              simp [handleBody, handleEnvelope, hp]
            rw [henv]
            by_cases hc : env.code ≠ 200
            · refine Or.inl (Or.inr (Or.inr (Or.inr (Or.inr (Or.inl ⟨env.msg, ?_⟩)))))
              simp [handleParsed, hc]
            · cases hm : firstMissing env.data with
              | some f =>
                refine Or.inl (Or.inr (Or.inr (Or.inr (Or.inr (Or.inr ⟨f, ?_⟩)))))
                simp [handleParsed, hc, hm]
              | none =>
                cases hr : renderBrief env.data with
                | some s =>
                  refine Or.inr ⟨env.data, s, hr, ?_⟩
                  simp [handleParsed, hc, hm, hr]
                | none =>
                  refine Or.inl (Or.inr (Or.inr (Or.inr (Or.inl ?_))))
                  simp [handleParsed, hc, hm, hr]
    · left; right; left
      simp [get_daily_zaobao, hst]

/-- Claim C4: for every well-formed envelope with code 200 in which some
required field (`date`, `news`, `weiyu`) is absent or empty, the function
returns the failure message naming a field that really is absent or empty
(the first such field in the source's check order), and nothing of the
brief is rendered. -/
theorem C4_missing_field_named (st : Nat) (fields : List (String × JVal))
    (env : ZaobaoResponse) (h1 : 200 ≤ st) (h2 : st < 300)
    (hp : parseEnvelope fields = some env) (hc : env.code = 200)
    (hmiss : ∃ f ∈ requiredFields, isMissingOrEmpty env.data f = true) :
    ∃ f, f ∈ requiredFields ∧ isMissingOrEmpty env.data f = true ∧
      get_daily_zaobao (.ok ⟨st, some (.jobj fields)⟩) = missingFieldMsg f := by
  rcases find?_exists _ requiredFields hmiss with ⟨g, hg, hgl, hpg⟩
  refine ⟨g, hgl, hpg, ?_⟩
  rw [get_daily_zaobao_2xx h1 h2]
  have hfm : firstMissing env.data = some g := hg
  simp [handleBody, handleEnvelope, hp, handleParsed, hc, hfm]

/-- Claim C4, witness: a payload without `news` is answered by the message
naming `news`. -/
theorem C4_missing_field_named_witness :
    ∃ f, f ∈ requiredFields ∧
      isMissingOrEmpty
        [("date", FieldVal.vstr "2024-05-01"), ("weiyu", FieldVal.vstr "w")] f = true ∧
      get_daily_zaobao (.ok ⟨200, some (.jobj
        [("code", JVal.jnum 200),
         ("data", JVal.jobj [("date", JVal.jstr "2024-05-01"),
                             ("weiyu", JVal.jstr "w")])])⟩) = missingFieldMsg f :=
  C4_missing_field_named 200
    [("code", JVal.jnum 200),
     ("data", JVal.jobj [("date", JVal.jstr "2024-05-01"),
                         ("weiyu", JVal.jstr "w")])]
    ⟨200, "", [("date", FieldVal.vstr "2024-05-01"), ("weiyu", FieldVal.vstr "w")]⟩
    (by decide) (by decide) rfl rfl ⟨"news", by decide, by decide⟩

/-- Claim C10, counterexample: an envelope that parses, has code 200 and
binds `news` to the empty list — but lacks `date` — is answered with the
message naming `date`, not `news`: the required-field loop checks `date`
first, so the claim's unconditional "naming 'news'" fails. -/
theorem C10_counterexample :
    get_daily_zaobao (.ok ⟨200, some (.jobj
        [("code", JVal.jnum 200),
         ("data", JVal.jobj [("news", JVal.jarr [])])])⟩) =
      missingFieldMsg "date" ∧
    missingFieldMsg "date" ≠ missingFieldMsg "news" :=
  ⟨rfl, by decide⟩

/-- Claim C10, amended: for every well-formed envelope with code 200 whose
data mapping binds `date` to a present truthy value and `news` to a falsy
value (empty list, empty string, or null), `get_daily_zaobao` returns
exactly the missing-field failure string naming `news` — the empty list is
treated as a validation failure, never substituted with the placeholder
and never rendered as an empty news section. -/
theorem C10_falsy_news_failure (st : Nat) (fields : List (String × JVal))
    (env : ZaobaoResponse) (dv nv : FieldVal)
    (h1 : 200 ≤ st) (h2 : st < 300)
    (hp : parseEnvelope fields = some env) (hc : env.code = 200)
    (hd : env.data.lookup "date" = some dv) (hdt : dv.truthy = true)
    (hn : env.data.lookup "news" = some nv) (hnt : nv.truthy = false) :
    get_daily_zaobao (.ok ⟨st, some (.jobj fields)⟩) = missingFieldMsg "news" := by
  have hdm : isMissingOrEmpty env.data "date" = false := by
    simp [isMissingOrEmpty, hd, hdt]
  have hnm : isMissingOrEmpty env.data "news" = true := by
    simp [isMissingOrEmpty, hn, hnt]
  have hfm : firstMissing env.data = some "news" := by
    show requiredFields.find? (isMissingOrEmpty env.data) = some "news"
    rw [show requiredFields = ["date", "news", "weiyu"] from rfl,
        List.find?_cons_of_neg _ (by simp [hdm]),
        List.find?_cons_of_pos _ hnm]
  rw [get_daily_zaobao_2xx h1 h2]
  simp [handleBody, handleEnvelope, hp, handleParsed, hc, hfm]

/-- Claim C10, witness for the amended theorem: code 200, date present and
non-empty, news bound to the empty list. -/
theorem C10_falsy_news_failure_witness :
    get_daily_zaobao (.ok ⟨200, some (.jobj
        [("code", JVal.jnum 200),
         ("data", JVal.jobj [("date", JVal.jstr "2024-05-01"),
                             ("news", JVal.jarr []),
                             ("weiyu", JVal.jstr "w")])])⟩) =
      missingFieldMsg "news" :=
  C10_falsy_news_failure 200
    [("code", JVal.jnum 200),
     ("data", JVal.jobj [("date", JVal.jstr "2024-05-01"),
                         ("news", JVal.jarr []),
                         ("weiyu", JVal.jstr "w")])]
    ⟨200, "", [("date", FieldVal.vstr "2024-05-01"),
               ("news", FieldVal.vlist []),
               ("weiyu", FieldVal.vstr "w")]⟩
    (FieldVal.vstr "2024-05-01") (FieldVal.vlist [])
    (by decide) (by decide) rfl rfl rfl (by decide) rfl (by decide)

/-- Claim C5, counterexample: an envelope whose `news` value is neither a
string nor a sequence of strings (here: a JSON object) does not get the
placeholder — it fails `ZaobaoResponse` validation, and the function
returns the malformed-data string, which contains neither the placeholder
nor the date. -/
theorem C5_counterexample :
    get_daily_zaobao (.ok ⟨200, some (.jobj
        [("code", JVal.jnum 200), ("msg", JVal.jstr ""),
         ("data", JVal.jobj [("date", JVal.jstr "2024-05-01"),
                             ("news", JVal.jobj []),
                             ("weiyu", JVal.jstr "Stay positive")])])⟩) =
      malformedMsg ∧
    (¬ ∃ a b : String, malformedMsg = a ++ "【暂无详细新闻】" ++ b) ∧
    ¬ ∃ a b : String, malformedMsg = a ++ "2024-05-01" ++ b := by
  refine ⟨rfl, ?_, ?_⟩
  · rintro ⟨a, b, h⟩
    exact absurd (char_mem_of_split h '暂' (by decide)) (by decide)
  · rintro ⟨a, b, h⟩
    exact absurd (char_mem_of_split h '2' (by decide)) (by decide)

/-- Claim C5, amended: for every 2xx response whose body binds `data` to an
object in which `news` has a value that is neither a string, nor an array
of strings, nor null, `get_daily_zaobao` returns the malformed-data failure
string: the typed pydantic model rejects such an envelope outright, so the
placeholder branch of the news normalisation (source line 110) is
unreachable and the placeholder is never substituted. -/
theorem C5_invalid_news_malformed (st : Nat) (fields : List (String × JVal))
    (dfields : List (String × JVal)) (v : JVal)
    (h1 : 200 ≤ st) (h2 : st < 300)
    (hdata : fields.lookup "data" = some (.jobj dfields))
    (hnews : dfields.lookup "news" = some v)
    (hv : validateFieldVal v = none) :
    get_daily_zaobao (.ok ⟨st, some (.jobj fields)⟩) = malformedMsg := by
  have hvd : validateData dfields = none :=
    validateData_eq_none (lookup_mem hnews) hv
  have hp : parseEnvelope fields = none := by
    simp [parseEnvelope, parseData, hdata, hvd]
  rw [get_daily_zaobao_2xx h1 h2]
  simp [handleBody, handleEnvelope, hp]

/-- Claim C5, witness for the amended theorem: `news` bound to a JSON
object. -/
theorem C5_invalid_news_malformed_witness :
    get_daily_zaobao (.ok ⟨200, some (.jobj
        [("code", JVal.jnum 200), ("msg", JVal.jstr ""),
         ("data", JVal.jobj [("date", JVal.jstr "2024-05-01"),
                             ("news", JVal.jobj [("x", JVal.jnum 1)]),
                             ("weiyu", JVal.jstr "Stay positive")])])⟩) =
      malformedMsg :=
  C5_invalid_news_malformed 200
    [("code", JVal.jnum 200), ("msg", JVal.jstr ""),
     ("data", JVal.jobj [("date", JVal.jstr "2024-05-01"),
                         ("news", JVal.jobj [("x", JVal.jnum 1)]),
                         ("weiyu", JVal.jstr "Stay positive")])]
    [("date", JVal.jstr "2024-05-01"),
     ("news", JVal.jobj [("x", JVal.jnum 1)]),
     ("weiyu", JVal.jstr "Stay positive")]
    (JVal.jobj [("x", JVal.jnum 1)])
    (by decide) (by decide) rfl rfl rfl

/-- `ChainedContains s [p1, ..., pn]`: the chunks `p1 ... pn` occur in `s`,
in this order and without overlapping (there is a split
`s = a1 ++ p1 ++ a2 ++ p2 ++ ... ++ pn ++ b`). -/
def ChainedContains : String → List String → Prop
  | _, [] => True
  | s, p :: ps => ∃ a b, s = a ++ p ++ b ∧ ChainedContains b ps

/-- The brief's news items, as the source normalises them: a string is one
item, a list is kept as is. -/
def newsItems : FieldVal → List String
  | .vstr s => [s]
  | .vlist xs => xs
  | .vnull => []

/-- On non-null values, news normalisation is the newline-join of the item
list. -/
theorem normNews_eq_join (nv : FieldVal) (h : nv ≠ .vnull) :
    normNews nv = pyJoinStr "\n" (newsItems nv) := by
  cases nv with
  | vnull => exact absurd rfl h
  | vstr s => simp [normNews, newsItems, pyJoinStr]
  | vlist xs => simp [normNews, newsItems]

/-- Ordered containment survives prepending text. -/
theorem chained_extend_left (c : String) {s : String} {ps : List String}
    (h : ChainedContains s ps) : ChainedContains (c ++ s) ps := by
  cases ps with
  | nil => trivial
  | cons p ps =>
    rcases h with ⟨a, b, he, hrest⟩
    exact ⟨c ++ a, b, by rw [he]; simp [String.append_assoc], hrest⟩

/-- A newline-join of items, followed by a newline, a last chunk and
arbitrary trailing text, contains the items and then the last chunk in
order. -/
theorem chained_join (items : List String) :
    ∀ w t : String,
      ChainedContains (pyJoinStr "\n" items ++ "\n" ++ w ++ t) (items ++ [w]) := by
  induction items with
  | nil =>
    intro w t
    exact ⟨pyJoinStr "\n" [] ++ "\n", t, rfl, trivial⟩
  | cons x xs ih =>
    intro w t
    cases xs with
    | nil =>
      refine ⟨"", "\n" ++ w ++ t, ?_, ⟨"\n", t, rfl, trivial⟩⟩
      simp [pyJoinStr, String.append_assoc, String.empty_append]
    | cons y ys =>
      refine ⟨"", "\n" ++ (pyJoinStr "\n" (y :: ys) ++ "\n" ++ w ++ t), ?_,
        chained_extend_left "\n" (ih w t)⟩
      simp [pyJoinStr, String.append_assoc, String.empty_append]

/-- The rendered brief contains, in order: the date, the news items, the
motivational line. -/
theorem chained_brief (pre d w t : String) (items : List String) :
    ChainedContains
      (pre ++ ("今天是 " ++ d) ++ "\n" ++ pyJoinStr "\n" items ++ "\n" ++ w ++ t)
      (d :: (items ++ [w])) := by
  refine ⟨pre ++ "今天是 ", "\n" ++ (pyJoinStr "\n" items ++ "\n" ++ w ++ t), ?_,
    chained_extend_left "\n" (chained_join items w t)⟩
  simp [String.append_assoc]

/-- On a payload whose `date` and `weiyu` are strings, the rendering block
succeeds and produces the header, the date line, the normalised news and
the motivational line, followed by the (possibly empty) audio tail. -/
theorem renderBrief_some (data : List (String × FieldVal)) (d w : String)
    (nv : FieldVal)
    (hn : data.lookup "news" = some nv)
    (hd : data.lookup "date" = some (.vstr d))
    (hw : data.lookup "weiyu" = some (.vstr w)) :
    ∃ t, renderBrief data =
      some (("【每日早报】" ++ "\n") ++ ("今天是 " ++ d) ++ "\n" ++
            normNews nv ++ "\n" ++ w ++ t) := by
  cases haud : data.lookup "audio" with
  | none =>
    refine ⟨"", ?_⟩
    simp [renderBrief, hn, hd, hw, haud, pyJoinVals, strValues, pyJoinStr,
      FieldVal.fstr, String.append_assoc, String.append_empty]
  | some a =>
    cases hat : a.truthy with
    | false =>
      refine ⟨"", ?_⟩
      simp [renderBrief, hn, hd, hw, haud, hat, pyJoinVals, strValues,
        pyJoinStr, FieldVal.fstr, String.append_assoc, String.append_empty]
    | true =>
      refine ⟨"\n" ++ ("\n音频链接: " ++ a.fstr), ?_⟩
      simp [renderBrief, hn, hd, hw, haud, hat, pyJoinVals, strValues,
        pyJoinStr, FieldVal.fstr, String.append_assoc]

/-- Claim C1: for every well-formed envelope with code 200 whose payload
carries a non-empty date string, a non-empty news value (a non-empty string
or a non-empty list of strings) and a non-empty motivational line,
`get_daily_zaobao` returns a success string containing the date, every news
item in the order received, and the motivational line, in that order. -/
theorem C1_success_contains_in_order (st : Nat) (fields : List (String × JVal))
    (env : ZaobaoResponse) (d w : String) (nv : FieldVal)
    (h1 : 200 ≤ st) (h2 : st < 300)
    (hp : parseEnvelope fields = some env) (hc : env.code = 200)
    (hd : env.data.lookup "date" = some (.vstr d)) (hd0 : d ≠ "")
    (hn : env.data.lookup "news" = some nv)
    (hnv : (∃ s, nv = .vstr s ∧ s ≠ "") ∨ ∃ xs, nv = .vlist xs ∧ xs ≠ [])
    (hw : env.data.lookup "weiyu" = some (.vstr w)) (hw0 : w ≠ "") :
    ChainedContains (get_daily_zaobao (.ok ⟨st, some (.jobj fields)⟩))
      (d :: (newsItems nv ++ [w])) := by
  have hdm : isMissingOrEmpty env.data "date" = false := by
    simp [isMissingOrEmpty, hd, FieldVal.truthy, hd0]
  have hwm : isMissingOrEmpty env.data "weiyu" = false := by
    simp [isMissingOrEmpty, hw, FieldVal.truthy, hw0]
  have hnt : nv.truthy = true := by
    rcases hnv with ⟨s, rfl, hs⟩ | ⟨xs, rfl, hxs⟩
    · simp [FieldVal.truthy, hs]
    · simp [FieldVal.truthy, List.isEmpty_iff, hxs]
  have hnm : isMissingOrEmpty env.data "news" = false := by
    simp [isMissingOrEmpty, hn, hnt]
  have hfm : firstMissing env.data = none := by
    show requiredFields.find? (isMissingOrEmpty env.data) = none
    rw [show requiredFields = ["date", "news", "weiyu"] from rfl,
        List.find?_cons_of_neg _ (by simp [hdm]),
        List.find?_cons_of_neg _ (by simp [hnm]),
        List.find?_cons_of_neg _ (by simp [hwm])]
    rfl
  have hnn : nv ≠ .vnull := by
    rcases hnv with ⟨s, rfl, _⟩ | ⟨xs, rfl, _⟩ <;> simp
  rcases renderBrief_some env.data d w nv hn hd hw with ⟨t, hrb⟩
  have hout : get_daily_zaobao (.ok ⟨st, some (.jobj fields)⟩) =
      ("【每日早报】" ++ "\n") ++ ("今天是 " ++ d) ++ "\n" ++
        normNews nv ++ "\n" ++ w ++ t := by
    rw [get_daily_zaobao_2xx h1 h2]
    simp [handleBody, handleEnvelope, hp, handleParsed, hc, hfm, hrb]
  rw [hout, normNews_eq_join nv hnn]
  exact chained_brief ("【每日早报】" ++ "\n") d w t (newsItems nv)

/-- Claim C1, witness: the spec's end-to-end example envelope, with the
exact 4-line output it promises. -/
theorem C1_success_contains_in_order_witness :
    ChainedContains
      (get_daily_zaobao (.ok ⟨200, some (.jobj
        [("code", JVal.jnum 200), ("msg", JVal.jstr ""),
         ("data", JVal.jobj [("date", JVal.jstr "2024-05-01"),
                             ("news", JVal.jarr [JVal.jstr "A", JVal.jstr "B"]),
                             ("weiyu", JVal.jstr "Stay positive")])])⟩))
      ("2024-05-01" :: (newsItems (FieldVal.vlist ["A", "B"]) ++ ["Stay positive"])) ∧
    get_daily_zaobao (.ok ⟨200, some (.jobj
        [("code", JVal.jnum 200), ("msg", JVal.jstr ""),
         ("data", JVal.jobj [("date", JVal.jstr "2024-05-01"),
                             ("news", JVal.jarr [JVal.jstr "A", JVal.jstr "B"]),
                             ("weiyu", JVal.jstr "Stay positive")])])⟩) =
      "【每日早报】\n今天是 2024-05-01\nA\nB\nStay positive" :=
  ⟨C1_success_contains_in_order 200
    [("code", JVal.jnum 200), ("msg", JVal.jstr ""),
     ("data", JVal.jobj [("date", JVal.jstr "2024-05-01"),
                         ("news", JVal.jarr [JVal.jstr "A", JVal.jstr "B"]),
                         ("weiyu", JVal.jstr "Stay positive")])]
    ⟨200, "", [("date", FieldVal.vstr "2024-05-01"),
               ("news", FieldVal.vlist ["A", "B"]),
               ("weiyu", FieldVal.vstr "Stay positive")]⟩
    "2024-05-01" "Stay positive" (FieldVal.vlist ["A", "B"])
    (by decide) (by decide) rfl rfl rfl (by decide) rfl
    (Or.inr ⟨["A", "B"], rfl, by decide⟩) rfl (by decide), rfl⟩

/-- Claim C8: for every successful envelope whose `news` value is a single
non-empty string, the output's news section is exactly that string — it sits
unsplit between the date line and the motivational line. -/
theorem C8_single_string_news (st : Nat) (fields : List (String × JVal))
    (env : ZaobaoResponse) (d w s : String)
    (h1 : 200 ≤ st) (h2 : st < 300)
    (hp : parseEnvelope fields = some env) (hc : env.code = 200)
    (hd : env.data.lookup "date" = some (.vstr d)) (hd0 : d ≠ "")
    (hn : env.data.lookup "news" = some (.vstr s)) (hs : s ≠ "")
    (hw : env.data.lookup "weiyu" = some (.vstr w)) (hw0 : w ≠ "") :
    ∃ t, get_daily_zaobao (.ok ⟨st, some (.jobj fields)⟩) =
      ("【每日早报】" ++ "\n") ++ ("今天是 " ++ d) ++ "\n" ++ s ++ "\n" ++ w ++ t := by
  have hdm : isMissingOrEmpty env.data "date" = false := by
    simp [isMissingOrEmpty, hd, FieldVal.truthy, hd0]
  have hwm : isMissingOrEmpty env.data "weiyu" = false := by
    simp [isMissingOrEmpty, hw, FieldVal.truthy, hw0]
  have hnm : isMissingOrEmpty env.data "news" = false := by
    simp [isMissingOrEmpty, hn, FieldVal.truthy, hs]
  have hfm : firstMissing env.data = none := by
    show requiredFields.find? (isMissingOrEmpty env.data) = none
    rw [show requiredFields = ["date", "news", "weiyu"] from rfl,
        List.find?_cons_of_neg _ (by simp [hdm]),
        List.find?_cons_of_neg _ (by simp [hnm]),
        List.find?_cons_of_neg _ (by simp [hwm])]
    rfl
  rcases renderBrief_some env.data d w (.vstr s) hn hd hw with ⟨t, hrb⟩
  refine ⟨t, ?_⟩
  rw [get_daily_zaobao_2xx h1 h2]
  simp [handleBody, handleEnvelope, hp, handleParsed, hc, hfm, hrb, normNews]

/-- Claim C8, witness: a single-string news value rendered unsplit. -/
theorem C8_single_string_news_witness :
    ∃ t, get_daily_zaobao (.ok ⟨200, some (.jobj
        [("code", JVal.jnum 200),
         ("data", JVal.jobj [("date", JVal.jstr "2024-05-01"),
                             ("news", JVal.jstr "今日仅此一条新闻"),
                             ("weiyu", JVal.jstr "加油")])])⟩) =
      ("【每日早报】" ++ "\n") ++ ("今天是 " ++ "2024-05-01") ++ "\n" ++
        "今日仅此一条新闻" ++ "\n" ++ "加油" ++ t :=
  C8_single_string_news 200
    [("code", JVal.jnum 200),
     ("data", JVal.jobj [("date", JVal.jstr "2024-05-01"),
                         ("news", JVal.jstr "今日仅此一条新闻"),
                         ("weiyu", JVal.jstr "加油")])]
    ⟨200, "", [("date", FieldVal.vstr "2024-05-01"),
               ("news", FieldVal.vstr "今日仅此一条新闻"),
               ("weiyu", FieldVal.vstr "加油")]⟩
    "2024-05-01" "加油" "今日仅此一条新闻"
    (by decide) (by decide) rfl rfl rfl (by decide) rfl (by decide) rfl (by decide)
